import Mathlib

/-!
Shallow embedding of the concurrent in-memory ledger from `bank.hpp` /
`bank.cpp`, together with the protocol-adapter fragments of
`bank_server.cpp` that the verified claims mention.

Modelling conventions:
* C++ `int` is modelled as `Int`; signed overflow is undefined behaviour in
  the source language, so the model captures the defined executions.
* `bank::user` objects are non-copyable and owned exclusively by the ledger
  map, which holds at most one user per name, so pointer identity
  (`this == &counterparty`) coincides with name equality; the model compares
  names where the source compares addresses.
* The blocking of `wait_next_transaction` is modelled by partiality: the
  call is `none` while the observed log is not yet long enough, and returns
  the transaction at the cursor index (advancing the cursor) as soon as the
  log has grown past it, exactly as the condition-variable wait does.
* `std::size_t` and the `static_cast<int>` in the adapter are modelled
  faithfully with modular arithmetic at widths 64 and 32 (LP64 platform).
-/

namespace bank

/-- `bank::transaction`: counterparty pointer (none for the opening
deposit), signed delta, free-text comment. -/
structure transaction where
  counterparty : Option String
  balance_delta_xts : Int
  comment : String
deriving DecidableEq, Repr

/-- `bank::user`: name, balance and append-only transaction log (the
trailing underscores of the C++ members are dropped). -/
structure user where
  name : String
  balance : Int
  transactions : List transaction
deriving DecidableEq, Repr

/-- The exception hierarchy rooted at `bank::transfer_error`. -/
inductive transfer_error where
  | invalid_transfer (msg : String)
  | not_enough_funds (current_balance requested_xts : Int)
deriving DecidableEq, Repr

/-- `bank::not_enough_funds_error::create_message`. -/
def create_message (current requested : Int) : String :=
  "Not enough funds: " ++ toString current ++ " XTS available, " ++
    toString requested ++ " XTS requested"

/-- `what()` of the thrown exception object. -/
def transfer_error.what : transfer_error → String
  | .invalid_transfer msg => msg
  | .not_enough_funds current requested => create_message current requested

/-- `bank::user::add_transaction`: append one entry to the log (the
condition-variable broadcast has no sequential content). -/
def add_transaction (u : user) (cpty : Option String) (delta : Int)
    (comment : String) : user :=
  { u with transactions := u.transactions ++ [⟨cpty, delta, comment⟩] }

/-- `bank::user::user`: balance 100 and the synthetic opening deposit. -/
def make_user (name : String) : user :=
  add_transaction { name := name, balance := 100, transactions := [] }
    none 100 ("Initial deposit for " ++ name)

/-- `bank::user::transfer`. The two `invalid_transfer` throws precede the
lock acquisition; the `not_enough_funds` throw precedes every mutation, so
a thrown error leaves both accounts untouched, which the model renders by
returning `Except.error` without producing new user states. -/
def transfer (src dst : user) (amount_xts : Int) (comment : String) :
    Except transfer_error (user × user) :=
  if src.name = dst.name then
    .error (.invalid_transfer "Self-transfer")
  else if amount_xts < 0 then
    .error (.invalid_transfer "Negative amount, you\x27re lose:(")
  else if src.balance - amount_xts < 0 then
    .error (.not_enough_funds src.balance amount_xts)
  else
    .ok
      (add_transaction { src with balance := src.balance - amount_xts }
        (some dst.name) (-amount_xts) comment,
       add_transaction { dst with balance := dst.balance + amount_xts }
        (some src.name) amount_xts comment)

/-- `bank::user_transactions_iterator`: the per-account cursor, reduced to
its `index_` field (the observed account is passed explicitly as its log). -/
structure user_transactions_iterator where
  index : Nat
deriving DecidableEq, Repr

/-- `bank::user::monitor`: a cursor positioned at the current log length. -/
def monitor (u : user) : user_transactions_iterator :=
  ⟨u.transactions.length⟩

/-- `bank::user::snapshot_transactions`: expose the `(log, balance)` pair
seen under the lock and return a cursor at the end of that log. -/
def snapshot_transactions (u : user) :
    (List transaction × Int) × user_transactions_iterator :=
  ((u.transactions, u.balance), ⟨u.transactions.length⟩)

/-- `bank::user_transactions_iterator::wait_next_transaction`, evaluated
against the log contents at the moment the wait completes: `none` while the
log is not longer than the index (the thread is still blocked), otherwise
the entry at the index together with the advanced cursor. -/
def wait_next_transaction (log : List transaction)
    (it : user_transactions_iterator) :
    Option (transaction × user_transactions_iterator) :=
  match log[it.index]? with
  | some t => some (t, ⟨it.index + 1⟩)
  | none => none

/-- `n` successive successful `wait_next_transaction` calls against a fixed
log, collecting the delivered transactions. -/
def wait_many (log : List transaction) (it : user_transactions_iterator) :
    Nat → Option (List transaction × user_transactions_iterator)
  | 0 => some ([], it)
  | n + 1 =>
    match wait_next_transaction log it with
    | none => none
    | some (t, it2) =>
      match wait_many log it2 n with
      | none => none
      | some (ts, it3) => some (t :: ts, it3)

/-- The `users_` map of `bank::ledger`, as an association list keyed by
account name. -/
abbrev ledger := List (String × user)

/-- Lookup in the `users_` map (`contains` / `at`). -/
def find_user : ledger → String → Option user
  | [], _ => none
  | (k, u) :: rest, n => if k = n then some u else find_user rest n

/-- `bank::ledger::get_or_create_user`. -/
def get_or_create_user (l : ledger) (name : String) : ledger × user :=
  match find_user l name with
  | some u => (l, u)
  | none => (l ++ [(name, make_user name)], make_user name)

/-- Writing back the in-place mutation of a ledger-owned user. -/
def store_user (l : ledger) (n : String) (u : user) : ledger :=
  l.map (fun p => if p.1 = n then (n, u) else p)

/-- One core operation on the shared ledger: a `get_or_create_user` call or
a `transfer` between two named accounts. -/
inductive op where
  | create (name : String)
  | xfer (src dst : String) (amount_xts : Int) (comment : String)
deriving DecidableEq, Repr

/-- Apply one operation to the ledger.  A transfer on a missing account or
a thrown `transfer_error` leaves the ledger unchanged, as in the source,
where the throws precede every mutation. -/
def apply_op (l : ledger) : op → ledger
  | .create n => (get_or_create_user l n).1
  | .xfer s d amount comment =>
    match find_user l s, find_user l d with
    | some us, some ud =>
      match transfer us ud amount comment with
      | .ok (us2, ud2) => store_user (store_user l s us2) d ud2
      | .error _ => l
    | some _, none => l
    | none, _ => l

/-- Every ledger state reachable by a sequence of core operations from the
empty map. -/
def run_ops (ops : List op) : ledger :=
  ops.foldl apply_op []

/-- Sum of `balance_delta_xts` over a log. -/
def sum_deltas (ts : List transaction) : Int :=
  (ts.map (fun t => t.balance_delta_xts)).sum

/-- Per-user invariant: the balance replays the log and is non-negative. -/
def user_ok (u : user) : Prop :=
  u.balance = sum_deltas u.transactions ∧ 0 ≤ u.balance

/-- Ledger invariant: every stored user carries its key as name and
satisfies `user_ok`. -/
def ledger_ok (l : ledger) : Prop :=
  ∀ p ∈ l, p.2.name = p.1 ∧ user_ok p.2

/-! Model of the protocol-adapter fragments of `bank_server.cpp` that the
claims mention. -/

/-- One tab-separated transaction line, as printed by both
`client_connection::get_transactions` and `client_connection::monitor`. -/
def transaction_line (t : transaction) : String :=
  (match t.counterparty with
   | none => "-"
   | some n => n) ++ "\t" ++ toString t.balance_delta_xts ++ "\t" ++ t.comment

/-- 2 ^ 64, the modulus of `std::size_t` arithmetic (LP64). -/
def size_t_mod : Nat := 2 ^ 64

/-- 2 ^ 32, the modulus of `int` (32-bit). -/
def int_mod : Nat := 2 ^ 32

/-- `static_cast<int>` of a size_t value: truncation to 32 bits read as a
two-complement signed integer. -/
def to_int32 (v : Nat) : Int :=
  if v % int_mod < 2 ^ 31 then ((v % int_mod : Nat) : Int)
  else ((v % int_mod : Nat) : Int) - (int_mod : Int)

/-- The start index computed by `client_connection::get_transactions`:
`std::max(static_cast<int>(transactions.size() - n), 0)`, with the
subtraction performed in `std::size_t`. -/
def start_index (len n : Nat) : Nat :=
  (max (to_int32 ((len % size_t_mod + size_t_mod - n % size_t_mod)
    % size_t_mod)) 0).toNat

/-- The log entries actually printed by `get_transactions`: the loop runs
from the computed start index to the end of the log. -/
def get_transactions_entries (log : List transaction) (n : Nat) :
    List transaction :=
  log.drop (start_index log.length n)

/-- The full reply of the `transactions <N>` command: header line, printed
entries, balance footer. -/
def get_transactions_output (log : List transaction) (balance : Int)
    (n : Nat) : List String :=
  "CPTY\tBAL\tCOMM" ::
    ((get_transactions_entries log n).map transaction_line ++
      ["===== BALANCE: " ++ toString balance ++ " XTS ====="])

/-- The `monitor <N>` handler of `client_connection`: it first runs
`get_transactions(n)` (a snapshot of the log, here `log1`, taken under the
account lock, whose returned iterator is discarded), then calls
`user_->monitor()`, which re-acquires the lock and positions a fresh cursor
at the log length current at that later moment.  `gap` is the list of
transactions other threads append between the two lock acquisitions and
`ext` those appended after monitoring begins; the second component is the
stream of lines the client is subsequently pushed. -/
def monitor_command_output (log1 gap ext : List transaction) (balance : Int)
    (n : Nat) : List String × List String :=
  (get_transactions_output log1 balance n,
   (((log1 ++ gap) ++ ext).drop (log1 ++ gap).length).map transaction_line)

/-! Concrete data used by counterexamples, bug evaluations and witnesses. -/

/-- Opening transaction of the account observed in the monitor scenario. -/
def alice_t0 : transaction := ⟨none, 100, "Initial deposit for Alice"⟩

/-- A transaction appended between `get_transactions` and `monitor()`. -/
def window_t1 : transaction := ⟨some "Bob", -10, "during the window"⟩

/-- A transaction appended after monitoring has started. -/
def after_t2 : transaction := ⟨some "Bob", -20, "after monitor started"⟩

/-- A three-entry account log for the `transactions <N>` evaluation. -/
def bug_log : List transaction :=
  [⟨none, 100, "Initial deposit for Carol"⟩,
   ⟨some "Dave", -10, "first"⟩,
   ⟨some "Dave", -20, "second"⟩]

/-- A two-account ledger used by a witness. -/
def demo_ledger : ledger :=
  [("Alice", make_user "Alice"), ("Bob", make_user "Bob")]

/-- Opening transaction of an account named Eve, used by a witness. -/
def eve_t : transaction := ⟨none, 100, "Initial deposit for Eve"⟩

/-! Helper lemmas shared by the claim theorems. -/

theorem sum_deltas_append (ts : List transaction) (t : transaction) :
    sum_deltas (ts ++ [t]) = sum_deltas ts + t.balance_delta_xts := by
  simp [sum_deltas]

theorem user_ok_make_user (name : String) : user_ok (make_user name) := by
  constructor <;> simp [make_user, add_transaction, user_ok, sum_deltas]

theorem find_user_ok (l : ledger) (hl : ledger_ok l) (n : String) (u : user)
    (h : find_user l n = some u) : u.name = n ∧ user_ok u := by
  induction l with
  | nil => simp [find_user] at h
  | cons p rest ih =>
    obtain ⟨k, v⟩ := p
    by_cases hk : k = n
    · subst hk
      have hv := hl (k, v) (by simp)
      simp [find_user] at h
      exact h ▸ hv
    · simp [find_user, hk] at h
      exact ih (fun q hq => hl q (List.mem_cons_of_mem _ hq)) h

theorem ledger_ok_store (l : ledger) (hl : ledger_ok l) (n : String)
    (u : user) (hn : u.name = n) (hu : user_ok u) :
    ledger_ok (store_user l n u) := by
  intro p hp
  simp only [store_user, List.mem_map] at hp
  obtain ⟨q, hq, hpq⟩ := hp
  by_cases h1 : q.1 = n
  · simp only [h1, if_pos rfl] at hpq
    subst hpq
    exact ⟨hn, hu⟩
  · simp only [if_neg h1] at hpq
    subst hpq
    exact hl q hq

theorem transfer_ok_eq (src dst : user) (amount : Int) (comment : String)
    (hne : ¬src.name = dst.name) (hneg : ¬amount < 0)
    (hfunds : ¬src.balance - amount < 0) :
    transfer src dst amount comment =
      .ok ({ name := src.name, balance := src.balance - amount,
             transactions :=
               src.transactions ++ [⟨some dst.name, -amount, comment⟩] },
           { name := dst.name, balance := dst.balance + amount,
             transactions :=
               dst.transactions ++ [⟨some src.name, amount, comment⟩] }) := by
  simp [transfer, hne, hneg, hfunds, add_transaction]

theorem transfer_ok_inv (src dst : user) (amount : Int) (comment : String)
    (src2 dst2 : user)
    (h : transfer src dst amount comment = .ok (src2, dst2)) :
    ¬src.name = dst.name ∧ 0 ≤ amount ∧ 0 ≤ src.balance - amount ∧
    src2 = { name := src.name, balance := src.balance - amount,
             transactions :=
               src.transactions ++ [⟨some dst.name, -amount, comment⟩] } ∧
    dst2 = { name := dst.name, balance := dst.balance + amount,
             transactions :=
               dst.transactions ++ [⟨some src.name, amount, comment⟩] } := by
  by_cases h1 : src.name = dst.name
  · simp [transfer, h1] at h
  by_cases h2 : amount < 0
  · simp [transfer, h1, h2] at h
  by_cases h3 : src.balance - amount < 0
  · simp [transfer, h1, h2, h3] at h
  · rw [transfer_ok_eq src dst amount comment h1 h2 h3] at h
    simp only [Except.ok.injEq, Prod.mk.injEq] at h
    exact ⟨h1, by omega, by omega, h.1.symm, h.2.symm⟩

theorem ledger_ok_apply_op (l : ledger) (o : op) (hl : ledger_ok l) :
    ledger_ok (apply_op l o) := by
  cases o with
  | create n =>
    show ledger_ok (get_or_create_user l n).1
    cases hfind : find_user l n with
    | some u =>
      simpa [get_or_create_user, hfind] using hl
    | none =>
      simp only [get_or_create_user, hfind]
      intro p hp
      rcases List.mem_append.mp hp with h | h
      · exact hl p h
      · simp only [List.mem_singleton] at h
        subst h
        exact ⟨rfl, user_ok_make_user n⟩
  | xfer s d amount comment =>
    cases hs : find_user l s with
    | none =>
      simpa [apply_op, hs] using hl
    | some us =>
      cases hd : find_user l d with
      | none =>
        simpa [apply_op, hs, hd] using hl
      | some ud =>
        cases ht : transfer us ud amount comment with
        | error e =>
          simpa [apply_op, hs, hd, ht] using hl
        | ok pr =>
          obtain ⟨us2, ud2⟩ := pr
          obtain ⟨hnames, hpos, hfunds, hsrc2, hdst2⟩ :=
            transfer_ok_inv us ud amount comment us2 ud2 ht
          obtain ⟨hsname, hsbal, hsnn⟩ :=
            by simpa [user_ok] using find_user_ok l hl s us hs
          obtain ⟨hdname, hdbal, hdnn⟩ :=
            by simpa [user_ok] using find_user_ok l hl d ud hd
          have hgoal :
              ledger_ok (store_user (store_user l s us2) d ud2) := by
            apply ledger_ok_store
            · exact ledger_ok_store l hl s us2 (by rw [hsrc2]; exact hsname)
                (by
                  subst hsrc2
                  constructor
                  · simp [sum_deltas_append]
                    omega
                  · simpa using hfunds)
            · rw [hdst2]; exact hdname
            · subst hdst2
              constructor
              · simp [sum_deltas_append]
                omega
              · simp
                omega
          simpa [apply_op, hs, hd, ht] using hgoal

theorem ledger_ok_run_ops (ops : List op) : ledger_ok (run_ops ops) := by
  have hgen : ∀ (rest : List op) (l : ledger), ledger_ok l →
      ledger_ok (rest.foldl apply_op l) := by
    intro rest
    induction rest with
    | nil => intro l hl; exact hl
    | cons o tail ih =>
      intro l hl
      exact ih _ (ledger_ok_apply_op l o hl)
  exact hgen ops [] (fun p hp => absurd hp (List.not_mem_nil p))

/-- Claim C1: after every sequence of core operations (account creation and
successful or failed transfers), every stored account balance equals the
sum of `balance_delta_xts` over its transaction log, and the `(log, balance)`
pair exposed by `snapshot_transactions` is mutually consistent: replaying
the deltas of the returned log reproduces the returned balance. -/
theorem balance_replays_log (ops : List op) (name : String) (u : user)
    (h : find_user (run_ops ops) name = some u) :
    u.balance = sum_deltas u.transactions ∧
    (snapshot_transactions u).1.2 =
      sum_deltas (snapshot_transactions u).1.1 := by
  have hok := (find_user_ok _ (ledger_ok_run_ops ops) name u h).2
  exact ⟨hok.1, hok.1⟩

/-- Witness for C1 at the one-operation sequence creating Carol. -/
theorem balance_replays_log_witness :
    (make_user "Carol").balance = sum_deltas (make_user "Carol").transactions ∧
    (snapshot_transactions (make_user "Carol")).1.2 =
      sum_deltas (snapshot_transactions (make_user "Carol")).1.1 :=
  balance_replays_log [op.create "Carol"] "Carol" (make_user "Carol")
    (by decide)

/-- Claim C2: starting from creation with balance 100, every account
balance is non-negative in every ledger state reachable by any sequence of
core operations; no transfer ever drives a balance below zero. -/
theorem balance_nonneg (ops : List op) (name : String) (u : user)
    (h : find_user (run_ops ops) name = some u) : 0 ≤ u.balance :=
  (find_user_ok _ (ledger_ok_run_ops ops) name u h).2.2

/-- Witness for C2 at the one-operation sequence creating Alice. -/
theorem balance_nonneg_witness : 0 ≤ (make_user "Alice").balance :=
  balance_nonneg [op.create "Alice"] "Alice" (make_user "Alice") (by decide)

/-- Claim C3: a transfer between distinct accounts of a non-negative amount
covered by the source balance succeeds; the source balance drops by the
amount and exactly one transaction (counterparty = destination,
delta = -amount, comment) is appended to its log, the destination balance
rises by the amount and exactly one transaction (counterparty = source,
delta = +amount, comment) is appended to its log, and no other field of
either account changes. -/
theorem transfer_success_spec (src dst : user) (amount : Int)
    (comment : String) (hne : src.name ≠ dst.name) (hpos : 0 ≤ amount)
    (hbal : amount ≤ src.balance) :
    transfer src dst amount comment =
      .ok ({ name := src.name, balance := src.balance - amount,
             transactions :=
               src.transactions ++ [⟨some dst.name, -amount, comment⟩] },
           { name := dst.name, balance := dst.balance + amount,
             transactions :=
               dst.transactions ++ [⟨some src.name, amount, comment⟩] }) :=
  transfer_ok_eq src dst amount comment hne (not_lt.mpr hpos)
    (not_lt.mpr (by omega))

/-- Witness for C3: Heidi sends Ivan 40 XTS out of her opening 100. -/
theorem transfer_success_spec_witness :
    transfer (make_user "Heidi") (make_user "Ivan") 40 "Test transfer" =
      .ok ({ name := (make_user "Heidi").name,
             balance := (make_user "Heidi").balance - 40,
             transactions := (make_user "Heidi").transactions ++
               [⟨some (make_user "Ivan").name, -40, "Test transfer"⟩] },
           { name := (make_user "Ivan").name,
             balance := (make_user "Ivan").balance + 40,
             transactions := (make_user "Ivan").transactions ++
               [⟨some (make_user "Heidi").name, 40, "Test transfer"⟩] }) :=
  transfer_success_spec (make_user "Heidi") (make_user "Ivan") 40
    "Test transfer" (by decide) (by decide) (by decide)

/-- Claim C4: `transfer` fails with `invalid_transfer` exactly when source
and destination are the same account or the amount is negative; otherwise
it fails with `not_enough_funds` exactly when the source balance minus the
amount is below zero, the error carrying the current balance and the
requested amount and its message reporting both; and every failed transfer
leaves the ledger, hence both balances and logs, exactly as before. -/
theorem transfer_failure_spec (src dst : user) (amount : Int)
    (comment : String) :
    ((∃ msg, transfer src dst amount comment =
        .error (.invalid_transfer msg)) ↔
      (src.name = dst.name ∨ amount < 0))
    ∧ ((∃ b r, transfer src dst amount comment =
        .error (.not_enough_funds b r)) ↔
      (¬src.name = dst.name ∧ ¬amount < 0 ∧ src.balance - amount < 0))
    ∧ (∀ b r, transfer src dst amount comment =
        .error (.not_enough_funds b r) →
        b = src.balance ∧ r = amount ∧
        (transfer_error.not_enough_funds b r).what =
          "Not enough funds: " ++ toString src.balance ++
            " XTS available, " ++ toString amount ++ " XTS requested")
    ∧ (∀ (l : ledger) (s d : String) (e : transfer_error),
        find_user l s = some src → find_user l d = some dst →
        transfer src dst amount comment = .error e →
        apply_op l (op.xfer s d amount comment) = l) := by
  refine ⟨?_, ?_, ?_, ?_⟩
  · constructor
    · rintro ⟨msg, hmsg⟩
      by_contra hcon
      push_neg at hcon
      obtain ⟨hn, ha⟩ := hcon
      by_cases h3 : src.balance - amount < 0 <;>
        simp [transfer, hn, not_lt.mpr ha, h3] at hmsg
    · rintro (h | h)
      · exact ⟨"Self-transfer", by simp [transfer, h]⟩
      · by_cases h1 : src.name = dst.name
        · exact ⟨"Self-transfer", by simp [transfer, h1]⟩
        · exact ⟨"Negative amount, you\x27re lose:(",
            by simp [transfer, h1, h]⟩
  · constructor
    · rintro ⟨b, r, hbr⟩
      by_cases h1 : src.name = dst.name
      · simp [transfer, h1] at hbr
      by_cases h2 : amount < 0
      · simp [transfer, h1, h2] at hbr
      by_cases h3 : src.balance - amount < 0
      · exact ⟨h1, h2, h3⟩
      · simp [transfer, h1, h2, h3] at hbr
    · rintro ⟨h1, h2, h3⟩
      exact ⟨src.balance, amount, by simp [transfer, h1, h2, h3]⟩
  · intro b r hbr
    by_cases h1 : src.name = dst.name
    · simp [transfer, h1] at hbr
    by_cases h2 : amount < 0
    · simp [transfer, h1, h2] at hbr
    by_cases h3 : src.balance - amount < 0
    · simp [transfer, h1, h2, h3] at hbr
      obtain ⟨hb, hr⟩ := hbr
      subst hb
      subst hr
      exact ⟨rfl, rfl, rfl⟩
    · simp [transfer, h1, h2, h3] at hbr
  · intro l s d e hfs hfd herr
    simp [apply_op, hfs, hfd, herr]

/-- Witness for C4: an overdraft attempt leaves the demo ledger unchanged. -/
theorem transfer_failure_spec_witness :
    apply_op demo_ledger (op.xfer "Alice" "Bob" 101 "too much") =
      demo_ledger :=
  (transfer_failure_spec (make_user "Alice") (make_user "Bob") 101
      "too much").2.2.2 demo_ledger "Alice" "Bob"
    (transfer_error.not_enough_funds 100 101) rfl rfl rfl

/-- If a name is absent from a ledger prefix, lookup continues in the
suffix. -/
theorem find_user_append_of_none (l l2 : ledger) (n : String)
    (h : find_user l n = none) :
    find_user (l ++ l2) n = find_user l2 n := by
  induction l with
  | nil => rfl
  | cons p rest ih =>
    obtain ⟨k, v⟩ := p
    by_cases hk : k = n
    · simp [find_user, hk] at h
    · simp only [find_user, if_neg hk, List.cons_append] at h ⊢
      exact ih h

/-- Claim C5: the first `get_or_create_user` call on a fresh name creates
and returns an account with that name, balance 100 and a log holding
exactly the opening transaction (counterparty = none, delta = +100); the
new mapping stores it under the name, and every later call with the same
name returns the stored account and leaves the mapping unchanged, so at
most one account per name ever exists. -/
theorem get_or_create_user_spec (l : ledger) (name : String)
    (h : find_user l name = none) :
    (get_or_create_user l name).2 = make_user name ∧
    (make_user name).name = name ∧
    (make_user name).balance = 100 ∧
    (make_user name).transactions =
      [⟨none, 100, "Initial deposit for " ++ name⟩] ∧
    (get_or_create_user l name).1 = l ++ [(name, make_user name)] ∧
    find_user (get_or_create_user l name).1 name = some (make_user name) ∧
    get_or_create_user (get_or_create_user l name).1 name =
      ((get_or_create_user l name).1, make_user name) ∧
    (∀ (l2 : ledger) (u : user), find_user l2 name = some u →
      get_or_create_user l2 name = (l2, u)) := by
  have hfind : find_user (l ++ [(name, make_user name)]) name =
      some (make_user name) := by
    rw [find_user_append_of_none l _ name h]
    simp [find_user]
  have hrepeat : ∀ (l2 : ledger) (u : user), find_user l2 name = some u →
      get_or_create_user l2 name = (l2, u) := by
    intro l2 u hu
    simp [get_or_create_user, hu]
  refine ⟨?_, rfl, rfl, rfl, ?_, ?_, ?_, hrepeat⟩
  · simp [get_or_create_user, h]
  · simp [get_or_create_user, h]
  · simpa [get_or_create_user, h] using hfind
  · have h1 : (get_or_create_user l name).1 = l ++ [(name, make_user name)] :=
      by simp [get_or_create_user, h]
    rw [h1]
    exact hrepeat _ _ hfind

/-- Witness for C5 on the empty ledger and the name Dave. -/
theorem get_or_create_user_spec_witness :
    (get_or_create_user [] "Dave").2 = make_user "Dave" ∧
    (make_user "Dave").balance = 100 ∧
    find_user (get_or_create_user [] "Dave").1 "Dave" =
      some (make_user "Dave") ∧
    get_or_create_user (get_or_create_user [] "Dave").1 "Dave" =
      ((get_or_create_user [] "Dave").1, make_user "Dave") := by
  obtain ⟨h1, _, h3, _, _, h6, h7, _⟩ := get_or_create_user_spec [] "Dave" rfl
  exact ⟨h1, h3, h6, h7⟩

/-- Claim C6: a cursor positioned at index `i` of an account log delivers,
over `n` successive successful `wait_next_transaction` calls, exactly the
log entries at indices `i, i+1, ..., i+n-1` in log order, with no
duplicates and no omissions, and ends positioned at `i + n`, each call
having advanced the position by exactly one. -/
theorem wait_next_delivers_suffix (log : List transaction) (i n : Nat)
    (h : i + n ≤ log.length) :
    wait_many log ⟨i⟩ n = some ((log.drop i).take n, ⟨i + n⟩) := by
  induction n generalizing i with
  | zero => simp [wait_many]
  | succ m ih =>
    have hi : i < log.length := by omega
    have hstep : wait_next_transaction log ⟨i⟩ = some (log[i], ⟨i + 1⟩) := by
      simp [wait_next_transaction, List.getElem?_eq_getElem hi]
    have hrec := ih (i + 1) (by omega)
    simp only [wait_many, hstep, hrec]
    rw [List.drop_eq_getElem_cons hi]
    simp only [List.take_succ_cons]
    have harith : i + 1 + m = i + (m + 1) := by omega
    rw [harith]

/-- Witness for C6: a fresh cursor on a one-entry log delivers that entry. -/
theorem wait_next_delivers_suffix_witness :
    wait_many [eve_t] ⟨0⟩ 1 =
      some ((([eve_t] : List transaction).drop 0).take 1, ⟨0 + 1⟩) :=
  wait_next_delivers_suffix [eve_t] 0 1 (by decide)

/-- Claim C8, evaluated at its failing interleaving: in the adapter, the
`monitor <N>` handler discards the iterator returned by the snapshot and
creates a fresh cursor only after re-acquiring the lock, so a transaction
appended in between (here `window_t1`) appears neither in the snapshot
output nor in the pushed stream, while the later `after_t2` is pushed;
the claim says every transaction appended after the snapshot is pushed. -/
theorem monitor_command_loses_window_transaction :
    (monitor_command_output [alice_t0] [window_t1] [after_t2] 70 10).2 =
      [transaction_line after_t2] ∧
    transaction_line window_t1 ∉
      (monitor_command_output [alice_t0] [window_t1] [after_t2] 70 10).1 ∧
    transaction_line window_t1 ∉
      (monitor_command_output [alice_t0] [window_t1] [after_t2] 70 10).2 := by
  decide

/-- Claim C9, evaluated at its failing input: on a three-entry log, the
request `transactions 4294967294` (a valid `std::size_t`) makes
`static_cast<int>(transactions.size() - n)` truncate the wrapped 64-bit
difference to the positive value 5, so the adapter prints no entries at
all, where the claim requires all `min(N, length) = 3` entries. -/
theorem get_transactions_drops_all_entries_on_huge_n :
    get_transactions_entries bug_log 4294967294 = [] ∧
    bug_log.length = 3 ∧
    start_index bug_log.length 4294967294 = 5 ∧
    get_transactions_output bug_log 70 4294967294 =
      ["CPTY\tBAL\tCOMM", "===== BALANCE: 70 XTS ====="] := by
  decide

/-- Claim C10: a transfer of amount exactly 0 between distinct accounts
succeeds, leaves both balances unchanged, appends one delta-0 transaction
carrying the comment to each log, and a cursor waiting at the previous end
of either log is woken with exactly that new transaction. -/
theorem transfer_zero_spec (src dst : user) (comment : String)
    (hne : src.name ≠ dst.name) (hbal : 0 ≤ src.balance) :
    transfer src dst 0 comment =
      .ok ({ name := src.name, balance := src.balance,
             transactions :=
               src.transactions ++ [⟨some dst.name, 0, comment⟩] },
           { name := dst.name, balance := dst.balance,
             transactions :=
               dst.transactions ++ [⟨some src.name, 0, comment⟩] }) ∧
    wait_next_transaction (src.transactions ++ [⟨some dst.name, 0, comment⟩])
        ⟨src.transactions.length⟩ =
      some (⟨some dst.name, 0, comment⟩, ⟨src.transactions.length + 1⟩) ∧
    wait_next_transaction (dst.transactions ++ [⟨some src.name, 0, comment⟩])
        ⟨dst.transactions.length⟩ =
      some (⟨some src.name, 0, comment⟩, ⟨dst.transactions.length + 1⟩) := by
  refine ⟨?_, ?_, ?_⟩
  · rw [transfer_ok_eq src dst 0 comment hne (by omega) (by omega)]
    simp
  · simp [wait_next_transaction, List.getElem?_concat_length]
  · simp [wait_next_transaction, List.getElem?_concat_length]

/-- Witness for C10: Frank sends Grace 0 XTS. -/
theorem transfer_zero_spec_witness :
    transfer (make_user "Frank") (make_user "Grace") 0 "zero transfer" =
      .ok ({ name := (make_user "Frank").name,
             balance := (make_user "Frank").balance,
             transactions := (make_user "Frank").transactions ++
               [⟨some (make_user "Grace").name, 0, "zero transfer"⟩] },
           { name := (make_user "Grace").name,
             balance := (make_user "Grace").balance,
             transactions := (make_user "Grace").transactions ++
               [⟨some (make_user "Frank").name, 0, "zero transfer"⟩] }) ∧
    wait_next_transaction ((make_user "Frank").transactions ++
        [⟨some (make_user "Grace").name, 0, "zero transfer"⟩])
        ⟨(make_user "Frank").transactions.length⟩ =
      some (⟨some (make_user "Grace").name, 0, "zero transfer"⟩,
        ⟨(make_user "Frank").transactions.length + 1⟩) ∧
    wait_next_transaction ((make_user "Grace").transactions ++
        [⟨some (make_user "Frank").name, 0, "zero transfer"⟩])
        ⟨(make_user "Grace").transactions.length⟩ =
      some (⟨some (make_user "Frank").name, 0, "zero transfer"⟩,
        ⟨(make_user "Grace").transactions.length + 1⟩) :=
  transfer_zero_spec (make_user "Frank") (make_user "Grace") "zero transfer"
    (by decide) (by decide)

end bank
